import Mathlib

/-!
Verification of the Authorization-Filtered Search Pipeline
(`services/secureSearch.js`, `services/permit.js`, `routes/search.js`).

JavaScript objects are modelled as association lists from field names to
string values: a key absent from the list is an `undefined` property, and
field lookup returns the first binding, so prepending a binding models the
override semantics of an object-spread update.  Falsy optional attributes
(`undefined`, `null`, the empty string) are modelled as `Option.none`.
The current wall-clock instant, which the source reads via `new Date()`,
is passed explicitly as a `Clock`.  The remote Permit.io client and the
Algolia backend are external collaborators: their behaviour is an explicit
parameter (an environment function / a fetched result), and a thrown or
rejected promise is an `Except.error`.
-/

/-- A JavaScript record object: field name to string value. -/
abbrev JsObj := List (String × String)

/-- Property read (`o.k`): first binding wins, absent key is `undefined`. -/
def getField (o : JsObj) (k : String) : Option String :=
  (o.find? (fun p => p.1 == k)).map (fun p => p.2)

/-- The `delete o.k` operator: removes every binding of the key. -/
def deleteField (o : JsObj) (k : String) : JsObj :=
  o.filter (fun p => p.1 != k)

/-- Object-spread override `\x7b ...o, k: v \x7d`: the new binding wins.
Prepending is observationally equal (through `getField`) to the source's
append-after-delete, since lookup takes the first binding. -/
def setField (o : JsObj) (k v : String) : JsObj :=
  (k, v) :: o

/-- Three-way lexicographic comparison of character sequences by code
point, the semantics of JavaScript's relational operators on strings
(identical to code-unit order on the `HH:MM` digit strings compared by
the source). -/
def cmpChars : List Char → List Char → Ordering
  | [], [] => Ordering.eq
  | [], _ :: _ => Ordering.lt
  | _ :: _, [] => Ordering.gt
  | a :: as, b :: bs =>
      if a.toNat < b.toNat then Ordering.lt
      else if b.toNat < a.toNat then Ordering.gt
      else cmpChars as bs

/-- JavaScript `x <= y` on strings. -/
def jsStrLe (x y : String) : Bool :=
  match cmpChars x.toList y.toList with
  | Ordering.gt => false
  | _ => true

/-- JavaScript `x < y` on strings. -/
def jsStrLt (x y : String) : Bool :=
  match cmpChars x.toList y.toList with
  | Ordering.lt => true
  | _ => false

/-- The acting identity, from `models/schemas.js` (`User`) restricted to the
attributes the pipeline reads.  `none` models a falsy (missing) attribute;
`accessExpiry` is a parsed timestamp in milliseconds since the epoch. -/
structure Requester where
  id : String
  email : String
  role : String
  department : String
  shiftStart : Option String
  shiftEnd : Option String
  accessExpiry : Option Int
  assignedPatients : Option (List String)
  emergencyAccess : Bool
deriving Repr, DecidableEq

/-- The ambient instant: `ms` is `Date.now()` in milliseconds, `timeOfDay`
is `new Date().toTimeString().slice(0, 5)`, an `HH:MM` string. -/
structure Clock where
  ms : Int
  timeOfDay : String
deriving Repr, DecidableEq

/-- `isWithinShiftHours` from `services/secureSearch.js` (lines 162-171):
missing bounds mean no restriction, otherwise the inclusive comparison
`shiftStart <= currentTime && currentTime <= shiftEnd` on `HH:MM`
strings. -/
def isWithinShiftHours (u : Requester) (nowTime : String) : Bool :=
  match u.shiftStart, u.shiftEnd with
  | some s, some e => jsStrLe s nowTime && jsStrLe nowTime e
  | _, _ => true

/-- `isShiftActive` from `services/permit.js` (lines 425-434); the body is
the same comparison used by `isWithinShiftHours`. -/
def isShiftActive (u : Requester) (nowTime : String) : Bool :=
  match u.shiftStart, u.shiftEnd with
  | some s, some e => jsStrLe s nowTime && jsStrLe nowTime e
  | _, _ => true

/-- `canAccessHighSensitivity` from `services/secureSearch.js`
(lines 176-184). -/
def canAccessHighSensitivity (u : Requester) : Bool :=
  ["hospital_admin", "department_head", "attending_physician"].contains u.role

/-- `user.accessExpiry && new Date(user.accessExpiry) < new Date()`. -/
def accessExpired (u : Requester) (nowMs : Int) : Bool :=
  match u.accessExpiry with
  | some e => decide (e < nowMs)
  | none => false

/-- `user.assignedPatients && !user.assignedPatients.includes(result.patient_id)`:
note that a present-but-empty assignment list is truthy in JavaScript and
therefore excludes every candidate whose `patient_id` is not listed. -/
def assignedPatientsExcludes (u : Requester) (o : JsObj) : Bool :=
  match u.assignedPatients with
  | some ps =>
      !(match getField o "patient_id" with
        | some p => ps.contains p
        | none => false)
  | none => false

/-- The per-candidate predicate of `applySecurityFilters` from
`services/secureSearch.js` (lines 122-157), branch for branch: emergency
override, temp-staff expiry, nurse/resident shift hours, nurse patient
assignment, and the sensitivity check, which reads the candidate's
`sensitivity_level` property. -/
def securityFilterKeeps (clock : Clock) (u : Requester) (o : JsObj) : Bool :=
  if u.emergencyAccess then true
  else if u.role == "temp_staff" && accessExpired u clock.ms then false
  else if (u.role == "registered_nurse" || u.role == "resident_doctor")
      && !(isWithinShiftHours u clock.timeOfDay) then false
  else if u.role == "registered_nurse" && assignedPatientsExcludes u o then false
  else if getField o "sensitivity_level" == some "high"
      && !(canAccessHighSensitivity u) then false
  else true

/-- `applySecurityFilters` from `services/secureSearch.js` (lines 122-157). -/
def applySecurityFilters (clock : Clock) (u : Requester) (results : List JsObj) : List JsObj :=
  results.filter (securityFilterKeeps clock u)

/-- The sanitisation performed in `filterAuthorizedResults` (lines 96-100)
and `getAuthorizedRecord` (lines 232-236): shallow copy, then deletion of
the three internal security fields. -/
def sanitizeRecord (o : JsObj) : JsObj :=
  deleteField (deleteField (deleteField o "_department") "_patient_id") "_sensitivity_level"

/-- The shape of a value resolved by the Permit client's `check` call, as
`checkPermission` (`services/permit.js`, lines 410-415) discriminates it:
the boolean `true`, an object whose `allow` property is the boolean `true`,
or anything else (the boolean `false`, an object without `allow === true`,
`null`, a string, a number, ...). -/
inductive PolicyResponse where
  | jsTrue
  | objAllowTrue
  | otherValue
deriving Repr, DecidableEq

/-- The mapped role/action/resource and the subject and resource attributes
that `checkPermission` (`services/permit.js`, lines 372-408) embeds in the
outbound policy query. -/
structure PermitQuery where
  subjectKey : String
  subjectEmail : String
  subjectRole : String
  subjectDepartment : String
  subjectShiftActive : Bool
  subjectAccessExpiry : Option Int
  subjectAssignedPatients : List String
  action : String
  resourceType : String
  resourceKey : Option String
  resourceDepartment : Option String
  resourceSensitivity : String
deriving Repr, DecidableEq

/-- The remote policy decision service: for a query it either resolves to a
value or rejects (`Except.error`). -/
abbrev PermitEnv := PermitQuery → Except Unit PolicyResponse

/-- `mapRoleToPermit` from `services/permit.js` (lines 320-334). -/
def mapRoleToPermit (role : String) : String :=
  match role with
  | "hospital_admin" => "admin"
  | "department_head" => "doctor"
  | "attending_physician" => "doctor"
  | "resident_doctor" => "doctor"
  | "registered_nurse" => "nurse"
  | "nurse_practitioner" => "nurse"
  | "lab_technician" => "nurse"
  | "radiologist" => "doctor"
  | "pharmacist" => "nurse"
  | "temp_staff" => "temporary_staff"
  | other => other

/-- `mapActionToPermit` from `services/permit.js` (lines 339-352). -/
def mapActionToPermit (action : String) : String :=
  match action with
  | "read" => "view"
  | "write" => "update"
  | "search" => "search"
  | "export" => "export"
  | "delete" => "delete"
  | "create" => "create"
  | "audit" => "auditquery"
  | other => other

/-- `mapResourceToPermit` from `services/permit.js` (lines 357-367). -/
def mapResourceToPermit (resourceType : String) : String :=
  match resourceType with
  | "patient_record" => "patient_records"
  | "lab_result" => "patient_records"
  | "imaging_study" => "patient_records"
  | "medication_record" => "patient_records"
  | "vital_signs" => "patient_records"
  | "discharge_summary" => "patient_records"
  | other => other

/-- The resource descriptor that the pipeline hands to `checkPermission`. -/
structure PermitResource where
  rtype : String
  rid : Option String
  department : Option String
  patientId : Option String
  sensitivityLevel : Option String
deriving Repr, DecidableEq

/-- The resource built per candidate in `filterAuthorizedResults`
(`services/secureSearch.js`, lines 78-87). -/
def buildSearchResource (o : JsObj) : PermitResource :=
  { rtype := (getField o "record_type").getD "patient_record"
    rid := getField o "objectID"
    department := getField o "_department"
    patientId := getField o "_patient_id"
    sensitivityLevel := getField o "_sensitivity_level" }

/-- The resource built in `getAuthorizedRecord`
(`services/secureSearch.js`, lines 204-210); same fields as the search
variant for the attributes the policy query reads. -/
def buildRecordResource (o : JsObj) : PermitResource :=
  { rtype := (getField o "record_type").getD "patient_record"
    rid := getField o "objectID"
    department := getField o "_department"
    patientId := getField o "_patient_id"
    sensitivityLevel := getField o "_sensitivity_level" }

/-- The outbound query assembled by `checkPermission`
(`services/permit.js`, lines 383-408): mapped role, action and resource
type, the derived `shift_active` boolean, and the candidate's attributes
with sensitivity defaulting to `normal`. -/
def buildPermitQuery (clock : Clock) (u : Requester) (action : String)
    (res : PermitResource) : PermitQuery :=
  { subjectKey := u.id
    subjectEmail := u.email
    subjectRole := mapRoleToPermit u.role
    subjectDepartment := u.department
    subjectShiftActive := isShiftActive u clock.timeOfDay
    subjectAccessExpiry := u.accessExpiry
    subjectAssignedPatients := u.assignedPatients.getD []
    action := mapActionToPermit action
    resourceType := mapResourceToPermit res.rtype
    resourceKey := res.rid
    resourceDepartment := res.department
    resourceSensitivity := res.sensitivityLevel.getD "normal" }

/-- `checkPermission` from `services/permit.js` (lines 372-420): issue the
policy query and normalise the outcome.  `decision === true` and an object
with `decision.allow === true` are the only truthy outcomes; every other
resolved value, and a thrown error (the surrounding `try`/`catch`),
normalises to `false`. -/
def checkPermission (env : PermitEnv) (clock : Clock) (u : Requester)
    (action : String) (res : PermitResource) : Bool :=
  match env (buildPermitQuery clock u action res) with
  | Except.error _ => false
  | Except.ok PolicyResponse.jsTrue => true
  | Except.ok PolicyResponse.objAllowTrue => true
  | Except.ok PolicyResponse.otherValue => false

/-- The outcome is an explicit allow: the boolean `true` or an object with
`allow === true`. -/
def isExplicitAllow (outcome : Except Unit PolicyResponse) : Prop :=
  outcome = Except.ok PolicyResponse.jsTrue ∨ outcome = Except.ok PolicyResponse.objAllowTrue

instance (outcome : Except Unit PolicyResponse) : Decidable (isExplicitAllow outcome) := by
  rcases outcome with e | v
  · exact isFalse (by rintro (h | h) <;> exact Except.noConfusion h)
  · cases v
    · exact isTrue (Or.inl rfl)
    · exact isTrue (Or.inr rfl)
    · exact isFalse (by rintro (h | h) <;> simp at h)

/-- The body of one batch task in `filterAuthorizedResults`
(`services/secureSearch.js`, lines 76-110): build the resource, check the
permission, and either return the sanitised record or `null` (`none`).
The surrounding per-candidate `try`/`catch` maps an exception to `null`;
`checkPermission` itself already absorbs every rejection of the remote
call, so the body is total. -/
def authorizeCandidate (env : PermitEnv) (clock : Clock) (u : Requester)
    (action : String) (o : JsObj) : Option JsObj :=
  if checkPermission env clock u action (buildSearchResource o) then some (sanitizeRecord o)
  else none

/-- The concurrency window of `filterAuthorizedResults` (line 71). -/
def batchSize : Nat := 10

/-- `filterAuthorizedResults` from `services/secureSearch.js`
(lines 67-117): process the candidates in windows of `batchSize`, await
the whole window (`Promise.all` preserves the window's order), drop the
`null` slots and append the survivors window by window. -/
def filterAuthorizedResults (env : PermitEnv) (clock : Clock) (u : Requester)
    (results : List JsObj) (action : String) : List JsObj :=
  match results with
  | [] => []
  | r :: rest =>
      ((r :: rest).take batchSize).filterMap (authorizeCandidate env clock u action)
        ++ filterAuthorizedResults env clock u (rest.drop (batchSize - 1)) action
termination_by results.length
decreasing_by simp [List.length_drop]; omega

/-- The post-fetch composition inside `secureSearch`
(`services/secureSearch.js`, lines 30-41): remote authorization filtering
followed by the local security filters. -/
def secureSearchPipeline (env : PermitEnv) (clock : Clock) (u : Requester)
    (hits : List JsObj) : List JsObj :=
  applySecurityFilters clock u (filterAuthorizedResults env clock u hits "search")

/-- One audit log entry, as assembled by `logSearchActivity`
(`services/secureSearch.js`, lines 271-280) and `logRecordAccess`
(lines 302-310). -/
structure AuditEvent where
  timestampMs : Int
  userId : String
  userEmail : String
  userRole : String
  userDepartment : String
  searchQuery : Option String
  resultCount : Option Nat
  recordId : Option String
  action : String
deriving Repr, DecidableEq

/-- The entry built by `logSearchActivity`.  The function catches every
error of its own body, so in the embedding it is total and returns the
entry it created. -/
def logSearchActivity (clock : Clock) (u : Requester) (query : String)
    (resultCount : Nat) : List AuditEvent :=
  [{ timestampMs := clock.ms
     userId := u.id
     userEmail := u.email
     userRole := u.role
     userDepartment := u.department
     searchQuery := some query
     resultCount := some resultCount
     recordId := none
     action := "search" }]

/-- The entry built by `logRecordAccess`; total for the same reason. -/
def logRecordAccess (clock : Clock) (u : Requester) (recordId : String)
    (action : String) : List AuditEvent :=
  [{ timestampMs := clock.ms
     userId := u.id
     userEmail := u.email
     userRole := u.role
     userDepartment := u.department
     searchQuery := none
     resultCount := none
     recordId := some recordId
     action := action }]

/-- The result of the Algolia `searchRecords` call consumed by
`secureSearch`. -/
structure SearchResults where
  hits : List JsObj
  totalHits : Nat
deriving Repr, DecidableEq

/-- The value `secureSearch` returns to its caller. -/
structure SearchResponse where
  hits : List JsObj
  totalHits : Nat
  userRole : String
  userDepartment : String
  filteredCount : Int
deriving Repr, DecidableEq

/-- The filter object `secureSearch` (`services/secureSearch.js`,
lines 17-26) passes to the search backend: the caller's filters, with a
`department` binding for the requester's department spread over them
unless the requester's role is `hospital_admin` or `admin`. -/
def secureSearchUpstreamFilters (u : Requester) (optFilters : JsObj) : JsObj :=
  if ["hospital_admin", "admin"].contains u.role then optFilters
  else setField optFilters "department" u.department

/-- `secureSearch` from `services/secureSearch.js` (lines 13-62), given
the outcome of the backend call it performed with
`secureSearchUpstreamFilters`: a failed fetch propagates (the outer
`catch` rethrows); otherwise the hits pass the authorization filter and
the security filters, one search audit entry is logged, and the response
carries the counts.  The second component collects the audit entries
created during the invocation. -/
def secureSearch (env : PermitEnv) (clock : Clock) (u : Requester)
    (query : String) (fetched : Except Unit SearchResults) :
    Except Unit SearchResponse × List AuditEvent :=
  match fetched with
  | Except.error e => (Except.error e, [])
  | Except.ok sr =>
      let authorized := filterAuthorizedResults env clock u sr.hits "search"
      let secure := applySecurityFilters clock u authorized
      (Except.ok
        { hits := secure
          totalHits := secure.length
          userRole := u.role
          userDepartment := u.department
          filteredCount := (sr.totalHits : Int) - (secure.length : Int) },
        logSearchActivity clock u query secure.length)

/-- `getAuthorizedRecord` from `services/secureSearch.js` (lines 189-243),
given the hit list the backend returned for the identifier lookup: no hit
fails with `Record not found`; a remote deny fails with `Access denied`;
a locally filtered-out record fails with
`Access denied due to security constraints`; otherwise the access is
logged and the sanitised record returned.  The second component collects
the audit entries created during the invocation. -/
def getAuthorizedRecord (env : PermitEnv) (clock : Clock) (u : Requester)
    (recordId : String) (lookupHits : List JsObj) :
    Except String JsObj × List AuditEvent :=
  match lookupHits with
  | [] => (Except.error "Record not found", [])
  | record :: _ =>
      if checkPermission env clock u "read" (buildRecordResource record) then
        match applySecurityFilters clock u [record] with
        | [] => (Except.error "Access denied due to security constraints", [])
        | kept :: _ =>
            (Except.ok (sanitizeRecord kept), logRecordAccess clock u recordId "read")
      else (Except.error "Access denied", [])

/-- One autocomplete suggestion as produced by the Algolia service:
`department` is `none` when the hit carries no (or an empty) department. -/
structure Suggestion where
  text : String
  stype : String
  department : Option String
deriving Repr, DecidableEq

/-- `getAuthorizedSuggestions` from `services/secureSearch.js`
(lines 248-264), given the backend's suggestion list: a department
equality filter for every role other than `hospital_admin`, and no audit
entry on any path. -/
def getAuthorizedSuggestions (u : Requester) (suggestions : List Suggestion) :
    List Suggestion × List AuditEvent :=
  (if u.role == "hospital_admin" then suggestions
   else suggestions.filter
      (fun s => s.department.isNone || s.department == some u.department), [])

/-- First step of the substring scan: whether the haystack starts with the
pattern. -/
def charsLeadWith : List Char → List Char → Bool
  | [], _ => true
  | _ :: _, [] => false
  | p :: ps, h :: t => p == h && charsLeadWith ps t

/-- `hay.includes(pat)`, the membership test of JavaScript's
`String.prototype.includes`, on the underlying character lists. -/
def strIncludes (hay pat : String) : Bool :=
  go hay.toList pat.toList
where
  go : List Char → List Char → Bool
    | [], pat => pat.isEmpty
    | h :: t, pat => charsLeadWith pat (h :: t) || go t pat

/-- The HTTP response of `GET /api/search/record/:id`
(`routes/search.js`, lines 159-216): status code and error code, with
`200 OK` standing for the success payload. -/
def recordRouteResponse (outcome : Except String JsObj) : Nat × String :=
  match outcome with
  | Except.ok _ => (200, "OK")
  | Except.error msg =>
      if strIncludes msg "not found" then (404, "RECORD_NOT_FOUND")
      else if strIncludes msg "Access denied" then (403, "RECORD_ACCESS_DENIED")
      else (500, "RECORD_ACCESS_ERROR")

/-- `Except` success as a boolean. -/
def exceptSucceeded : Except String JsObj → Bool
  | Except.ok _ => true
  | Except.error _ => false

/-- Object identities, for observing that sanitisation never mutates its
input object. -/
abbrev ObjId := Nat

/-- A heap of JavaScript objects. -/
abbrev Store := List (ObjId × JsObj)

/-- Dereference an object identity; the first binding wins. -/
def storeGet (s : Store) (i : ObjId) : Option JsObj :=
  (s.find? (fun p => p.1 == i)).map (fun p => p.2)

/-- An identity not yet present in the heap. -/
def freshId (s : Store) : ObjId :=
  (s.map (fun p => p.1)).foldr (fun a b => max a b) 0 + 1

/-- The sanitisation statements at the heap level
(`services/secureSearch.js`, lines 97-100 and 233-236):
`const sanitized = \x7b ...record \x7d` allocates a fresh object carrying
the same fields, and the three `delete` statements update only that fresh
object, leaving the input object untouched. -/
def sanitizeRecordAlloc (s : Store) (src : ObjId) : Store × ObjId :=
  let obj := (storeGet s src).getD []
  let nid := freshId s
  let afterCopy : Store := (nid, obj) :: s
  let afterDeletes : Store := (nid, sanitizeRecord obj) :: afterCopy
  (afterDeletes, nid)

/-- A fixed instant: some time in 2023, at `12:00` local time. -/
def demoClock : Clock := { ms := 1700000000000, timeOfDay := "12:00" }

/-- A policy service that always resolves `\x7b allow: true \x7d`, the
behaviour of the mock Permit client (`services/permit.js`, line 11). -/
def allowEnv : PermitEnv := fun _ => Except.ok PolicyResponse.objAllowTrue

/-- A policy service that always resolves a non-allow value. -/
def denyEnv : PermitEnv := fun _ => Except.ok PolicyResponse.otherValue

/-- A policy service whose calls always reject. -/
def throwEnv : PermitEnv := fun _ => Except.error ()

/-- A registered nurse with no shift bounds, no assignment list, no expiry
and no emergency flag. -/
def nurseRequester : Requester :=
  { id := "user_004"
    email := "nurse.smith@hospital.com"
    role := "registered_nurse"
    department := "emergency"
    shiftStart := none
    shiftEnd := none
    accessExpiry := none
    assignedPatients := none
    emergencyAccess := false }

/-- The same nurse restricted to patient `PAT001`. -/
def assignedNurse : Requester :=
  { nurseRequester with assignedPatients := some ["PAT001"] }

/-- The same nurse with the emergency-access flag set. -/
def emergencyNurse : Requester :=
  { nurseRequester with emergencyAccess := true }

/-- A nurse on an overnight shift (`22:00` to `06:00`). -/
def overnightNurse : Requester :=
  { nurseRequester with shiftStart := some "22:00", shiftEnd := some "06:00" }

/-- An attending physician whose access expired at the epoch. -/
def expiredPhysician : Requester :=
  { id := "user_003"
    email := "michael.chen@hospital.com"
    role := "attending_physician"
    department := "cardiology"
    shiftStart := none
    shiftEnd := none
    accessExpiry := some 0
    assignedPatients := none
    emergencyAccess := false }

/-- A temporary staff member whose access expired at the epoch. -/
def expiredTempStaff : Requester :=
  { id := "user_005"
    email := "temp.nurse@hospital.com"
    role := "temp_staff"
    department := "emergency"
    shiftStart := none
    shiftEnd := none
    accessExpiry := some 0
    assignedPatients := none
    emergencyAccess := false }

/-- A hospital administrator. -/
def adminRequester : Requester :=
  { id := "user_001"
    email := "admin@hospital.com"
    role := "hospital_admin"
    department := "administration"
    shiftStart := none
    shiftEnd := none
    accessExpiry := none
    assignedPatients := none
    emergencyAccess := true }

/-- An indexed candidate as `batchIndexRecords` stores it
(`services/algolia.js`, lines 217-246): the sensitivity tier lives in the
internal `_sensitivity_level` field. -/
def highSensRecord : JsObj :=
  [("objectID", "rec_003"), ("record_type", "patient_record"),
   ("patient_name", "Emergency Patient"), ("_department", "emergency"),
   ("_patient_id", "PAT003"), ("_sensitivity_level", "high")]

/-- An indexed candidate of normal sensitivity. -/
def normalRecord : JsObj :=
  [("objectID", "rec_001"), ("record_type", "patient_record"),
   ("patient_name", "John Doe"), ("_department", "cardiology"),
   ("_patient_id", "PAT001"), ("_sensitivity_level", "normal")]

/-- A candidate shaped like the unit-test fixtures: the sensitivity value
sits in a plain `sensitivity_level` field. -/
def plainSensRecord : JsObj :=
  [("objectID", "rec_x"), ("sensitivity_level", "high")]

/-- A candidate carrying a plain `patient_id` field for a patient that is
not on `assignedNurse`'s list. -/
def otherPatientRecord : JsObj :=
  [("objectID", "rec_009"), ("patient_id", "PAT009")]

/-- A candidate with no internal security fields at all. -/
def cleanRecord : JsObj :=
  [("objectID", "rec_007"), ("patient_name", "Jane Smith")]

/-- A one-object heap for exercising the sanitiser. -/
def demoStore : Store := [(0, highSensRecord)]

/-- A suggestion in the nurse's department and one in another. -/
def demoSuggestions : List Suggestion :=
  [{ text := "John Doe", stype := "patient", department := some "emergency" },
   { text := "Jane Smith", stype := "patient", department := some "cardiology" }]

theorem getField_cons (a : String × String) (t : JsObj) (k : String) :
    getField (a :: t) k = if a.1 == k then some a.2 else getField t k := by
  cases hb : (a.1 == k) <;> simp [getField, List.find?, hb]

theorem deleteField_cons (a : String × String) (t : JsObj) (k : String) :
    deleteField (a :: t) k = if a.1 == k then deleteField t k else a :: deleteField t k := by
  by_cases h : a.1 = k <;> simp [deleteField, List.filter_cons, h]

theorem le_foldr_max (l : List Nat) (a : Nat) (h : a ∈ l) :
    a ≤ l.foldr (fun x y => max x y) 0 := by
  induction l with
  | nil => cases h
  | cons b t ih =>
      rcases List.mem_cons.mp h with rfl | hmem
      · exact le_max_left _ _
      · exact le_trans (ih hmem) (le_max_right _ _)

theorem storeGet_some_mem {s : Store} {i : ObjId} {o : JsObj}
    (h : storeGet s i = some o) : i ∈ s.map (fun p => p.1) := by
  unfold storeGet at h
  rcases Option.map_eq_some'.mp h with ⟨p, hfind, hval⟩
  have hmem : p ∈ s := List.mem_of_find?_eq_some hfind
  have hpa := List.find?_some hfind
  have hpi : p.1 = i := by simpa using hpa
  exact hpi ▸ List.mem_map_of_mem _ hmem

theorem storeGet_ne_freshId {s : Store} {i : ObjId} {o : JsObj}
    (h : storeGet s i = some o) : i ≠ freshId s := by
  have hle := le_foldr_max (s.map (fun p => p.1)) i (storeGet_some_mem h)
  unfold freshId
  exact Nat.ne_of_lt (Nat.lt_succ_of_le hle)

theorem storeGet_cons_ne {s : Store} {i j : ObjId} {o : JsObj} (h : i ≠ j) :
    storeGet ((j, o) :: s) i = storeGet s i := by
  have hb : (j == i) = false := by simpa using fun hji => h hji.symm
  simp [storeGet, List.find?, hb]

theorem getField_deleteField_self (o : JsObj) (k : String) :
    getField (deleteField o k) k = none := by
  induction o with
  | nil => rfl
  | cons a t ih =>
      cases hb : (a.1 == k) <;> simp [deleteField_cons, getField_cons, hb, ih]

theorem getField_deleteField_other (o : JsObj) (k q : String) (h : q ≠ k) :
    getField (deleteField o k) q = getField o q := by
  induction o with
  | nil => rfl
  | cons a t ih =>
      by_cases hk : a.1 = k
      · simp [deleteField_cons, getField_cons, hk, Ne.symm h, ih]
      · by_cases hq2 : a.1 = q <;>
          simp [deleteField_cons, getField_cons, hk, hq2, h, Ne.symm h, ih]

theorem sanitizeRecord_idem_aux (o : JsObj) :
    sanitizeRecord (sanitizeRecord o) = sanitizeRecord o := by
  simp only [sanitizeRecord, deleteField, List.filter_filter]
  apply List.filter_congr
  intro x _
  cases hd : (x.1 != "_department") <;> cases hp : (x.1 != "_patient_id") <;>
    cases hs : (x.1 != "_sensitivity_level") <;> simp [hd, hp, hs]

theorem cmpChars_gt_iff_lt : ∀ x y, cmpChars x y = Ordering.gt ↔ cmpChars y x = Ordering.lt := by
  intro x
  induction x with
  | nil => intro y; cases y <;> simp [cmpChars]
  | cons a as ih =>
      intro y
      cases y with
      | nil => simp [cmpChars]
      | cons b bs =>
          by_cases h1 : a.toNat < b.toNat
          · have h2 : ¬ b.toNat < a.toNat := by omega
            simp [cmpChars, h1, h2]
          · by_cases h2 : b.toNat < a.toNat
            · simp [cmpChars, h1, h2]
            · simp [cmpChars, h1, h2, ih bs]

theorem cmpChars_ne_gt_trans : ∀ x y z, cmpChars x y ≠ Ordering.gt →
    cmpChars y z ≠ Ordering.gt → cmpChars x z ≠ Ordering.gt := by
  intro x
  induction x with
  | nil =>
      intro y z _ _
      cases z <;> simp [cmpChars]
  | cons a as ih =>
      intro y z hxy hyz
      cases y with
      | nil => simp [cmpChars] at hxy
      | cons b bs =>
          cases z with
          | nil => simp [cmpChars] at hyz
          | cons c cs =>
              simp only [cmpChars] at hxy hyz ⊢
              by_cases hab : a.toNat < b.toNat
              · by_cases hbc : b.toNat < c.toNat
                · have hac : a.toNat < c.toNat := by omega
                  simp [hac]
                · by_cases hcb : c.toNat < b.toNat
                  · simp [hbc, hcb] at hyz
                  · have hac : a.toNat < c.toNat := by omega
                    simp [hac]
              · by_cases hba : b.toNat < a.toNat
                · simp [hab, hba] at hxy
                · by_cases hbc : b.toNat < c.toNat
                  · have hac : a.toNat < c.toNat := by omega
                    simp [hac]
                  · by_cases hcb : c.toNat < b.toNat
                    · simp [hbc, hcb] at hyz
                    · have h1 : ¬ a.toNat < c.toNat := by omega
                      have h2 : ¬ c.toNat < a.toNat := by omega
                      simp [hab, hba] at hxy
                      simp [hbc, hcb] at hyz
                      simp [h1, h2]
                      exact ih bs cs hxy hyz

theorem jsStrLe_iff (x y : String) :
    jsStrLe x y = true ↔ cmpChars x.toList y.toList ≠ Ordering.gt := by
  unfold jsStrLe
  cases h : cmpChars x.toList y.toList <;> simp [h]

theorem jsStrLt_iff (x y : String) :
    jsStrLt x y = true ↔ cmpChars x.toList y.toList = Ordering.lt := by
  unfold jsStrLt
  cases h : cmpChars x.toList y.toList <;> simp [h]

theorem jsStrLe_of_chain {s t e : String} (h1 : jsStrLe s t = true)
    (h2 : jsStrLe t e = true) : jsStrLe s e = true := by
  rw [jsStrLe_iff] at h1 h2 ⊢
  exact cmpChars_ne_gt_trans _ _ _ h1 h2

theorem jsStrLt_not_le {e s : String} (h : jsStrLt e s = true) :
    jsStrLe s e = false := by
  have hlt : cmpChars e.toList s.toList = Ordering.lt := (jsStrLt_iff e s).mp h
  have hgt : cmpChars s.toList e.toList = Ordering.gt := (cmpChars_gt_iff_lt _ _).mpr hlt
  unfold jsStrLe
  rw [hgt]

theorem filterAuthorizedResults_eq_filterMap (env : PermitEnv) (clock : Clock)
    (u : Requester) (action : String) (results : List JsObj) :
    filterAuthorizedResults env clock u results action
      = results.filterMap (authorizeCandidate env clock u action) := by
  have main : ∀ n (l : List JsObj), l.length ≤ n →
      filterAuthorizedResults env clock u l action
        = l.filterMap (authorizeCandidate env clock u action) := by
    intro n
    induction n with
    | zero =>
        intro l hl
        cases l with
        | nil => simp [filterAuthorizedResults]
        | cons a t => simp at hl
    | succ n ih =>
        intro l hl
        cases l with
        | nil => simp [filterAuthorizedResults]
        | cons a t =>
            have h1 : t.length + 1 ≤ n + 1 := by simpa using hl
            have hlen : (t.drop (batchSize - 1)).length ≤ n := by
              simp [List.length_drop, batchSize]
              omega
            rw [filterAuthorizedResults, ih _ hlen]
            have hdrop : t.drop (batchSize - 1) = (a :: t).drop batchSize := rfl
            rw [hdrop, ← List.filterMap_append, List.take_append_drop]
  exact main results.length results (le_refl _)

theorem filterMap_authorize_eq_map_filter (env : PermitEnv) (clock : Clock)
    (u : Requester) (action : String) (l : List JsObj) :
    l.filterMap (authorizeCandidate env clock u action)
      = (l.filter (fun o => checkPermission env clock u action (buildSearchResource o))).map
          sanitizeRecord := by
  induction l with
  | nil => rfl
  | cons a t ih =>
      by_cases h : checkPermission env clock u action (buildSearchResource a)
      · simp [authorizeCandidate, h, List.filterMap_cons, ih]
      · simp [authorizeCandidate, h, List.filterMap_cons, ih]

theorem checkPermission_eq_allow (env : PermitEnv) (clock : Clock) (u : Requester)
    (action : String) (res : PermitResource) :
    checkPermission env clock u action res = true ↔
      isExplicitAllow (env (buildPermitQuery clock u action res)) := by
  unfold checkPermission isExplicitAllow
  rcases henv : env (buildPermitQuery clock u action res) with e | v
  · simp
  · cases v <;> simp

/-- C1: Fail-closed authorization: whenever the remote policy check throws
(`Except.error`) or resolves to any value other than an explicit allow
(the boolean `true` or an object with `allow === true`), `checkPermission`
returns `false`; and `filterAuthorizedResults` equals the per-candidate
filter-map of that normalised decision, so every such candidate is
excluded from the output, each candidate's fate depends only on its own
policy outcome (a failure for one candidate never aborts its window
siblings or later windows), and no exception escapes the filtering step
(the embedded function is total). -/
theorem checkPermission_fail_closed (env : PermitEnv) (clock : Clock)
    (u : Requester) (action : String) :
    (∀ res : PermitResource,
        ¬ isExplicitAllow (env (buildPermitQuery clock u action res)) →
          checkPermission env clock u action res = false)
    ∧ ∀ results : List JsObj,
        filterAuthorizedResults env clock u results action
          = (results.filter
              (fun o => checkPermission env clock u action (buildSearchResource o))).map
              sanitizeRecord := by
  constructor
  · intro res hna
    cases hb : checkPermission env clock u action res
    · rfl
    · exact absurd ((checkPermission_eq_allow env clock u action res).mp hb) hna
  · intro results
    rw [filterAuthorizedResults_eq_filterMap, filterMap_authorize_eq_map_filter]

/-- Witness for `checkPermission_fail_closed`: a throwing policy client
denies, and the filtering step excludes the record without an exception. -/
theorem checkPermission_fail_closed_witness :
    (¬ isExplicitAllow
        (throwEnv (buildPermitQuery demoClock nurseRequester "search"
          (buildSearchResource normalRecord)))
      ∧ checkPermission throwEnv demoClock nurseRequester "search"
          (buildSearchResource normalRecord) = false)
    ∧ filterAuthorizedResults throwEnv demoClock nurseRequester [normalRecord] "search" = [] := by
  have h := checkPermission_fail_closed throwEnv demoClock nurseRequester "search"
  refine ⟨⟨by decide, h.1 _ (by decide)⟩, ?_⟩
  rw [h.2 [normalRecord]]
  decide

/-- C6: Order preservation: the output of `filterAuthorizedResults` is a
subsequence of the sanitised input, preserving the candidates' original
relative order (windows are processed in sequence and survivors keep
their positions); for candidates carrying none of the internal fields the
sanitiser strips, it is literally a subsequence of the input list. -/
theorem filterAuthorizedResults_order_preserving (env : PermitEnv) (clock : Clock)
    (u : Requester) (action : String) (results : List JsObj) :
    List.Sublist (filterAuthorizedResults env clock u results action)
      (results.map sanitizeRecord)
    ∧ ((∀ o ∈ results, sanitizeRecord o = o) →
        List.Sublist (filterAuthorizedResults env clock u results action) results) := by
  have hchar : filterAuthorizedResults env clock u results action
      = (results.filter
          (fun o => checkPermission env clock u action (buildSearchResource o))).map
          sanitizeRecord := by
    rw [filterAuthorizedResults_eq_filterMap, filterMap_authorize_eq_map_filter]
  constructor
  · rw [hchar]
    exact List.Sublist.map sanitizeRecord (List.filter_sublist results)
  · intro hid
    rw [hchar]
    have hmapid : ∀ l : List JsObj, (∀ o ∈ l, sanitizeRecord o = o) →
        l.map sanitizeRecord = l := by
      intro l hl
      induction l with
      | nil => rfl
      | cons a t ih =>
          simp only [List.map_cons, hl a (by simp)]
          rw [ih (fun o ho => hl o (by simp [ho]))]
    rw [hmapid _ (fun o ho => hid o (List.mem_of_mem_filter ho))]
    exact List.filter_sublist results

/-- Witness for `filterAuthorizedResults_order_preserving` at a concrete
two-candidate list without internal fields. -/
theorem filterAuthorizedResults_order_preserving_witness :
    (∀ o ∈ [cleanRecord, otherPatientRecord], sanitizeRecord o = o)
    ∧ List.Sublist
        (filterAuthorizedResults allowEnv demoClock nurseRequester
          [cleanRecord, otherPatientRecord] "search")
        [cleanRecord, otherPatientRecord] :=
  ⟨by decide,
    (filterAuthorizedResults_order_preserving allowEnv demoClock nurseRequester "search"
      [cleanRecord, otherPatientRecord]).2 (by decide)⟩

/-- C7: Emergency override precedence: with the emergency-access flag set,
`applySecurityFilters` passes every candidate (all local rules are
skipped), and the composed search pipeline returns exactly the
policy-allowed candidates, so a candidate still reaches the final result
only if the remote policy check allowed it. -/
theorem emergency_override_precedence (env : PermitEnv) (clock : Clock)
    (u : Requester) (h : u.emergencyAccess = true) :
    (∀ results, applySecurityFilters clock u results = results)
    ∧ ∀ hits, secureSearchPipeline env clock u hits
        = (hits.filter
            (fun o => checkPermission env clock u "search" (buildSearchResource o))).map
            sanitizeRecord := by
  have hall : ∀ o, securityFilterKeeps clock u o = true := by
    intro o
    unfold securityFilterKeeps
    simp [h]
  constructor
  · intro results
    unfold applySecurityFilters
    exact List.filter_eq_self.mpr (fun a _ => hall a)
  · intro hits
    unfold secureSearchPipeline applySecurityFilters
    rw [filterAuthorizedResults_eq_filterMap, filterMap_authorize_eq_map_filter]
    exact List.filter_eq_self.mpr (fun a _ => hall a)

/-- Witness for `emergency_override_precedence`: the emergency nurse passes
every local rule even for a high-sensitivity candidate, yet a denying
policy service still leaves the final result empty. -/
theorem emergency_override_precedence_witness :
    emergencyNurse.emergencyAccess = true
    ∧ applySecurityFilters demoClock emergencyNurse [highSensRecord] = [highSensRecord]
    ∧ secureSearchPipeline denyEnv demoClock emergencyNurse [highSensRecord] = [] := by
  have h := emergency_override_precedence denyEnv demoClock emergencyNurse rfl
  refine ⟨rfl, h.1 [highSensRecord], ?_⟩
  rw [h.2 [highSensRecord]]
  decide

/-- C8: Department default filter: for a requester whose role is outside
the unrestricted set, with no explicit department filter in the options,
the filters handed to the search backend carry a department binding equal
to the requester's department; for a requester in the unrestricted set the
caller's filters pass through unchanged. -/
theorem department_default_filter (u : Requester) (optFilters : JsObj) :
    (["hospital_admin", "admin"].contains u.role = false →
      getField optFilters "department" = none →
        getField (secureSearchUpstreamFilters u optFilters) "department" = some u.department)
    ∧ (["hospital_admin", "admin"].contains u.role = true →
        secureSearchUpstreamFilters u optFilters = optFilters) := by
  constructor
  · intro hnp _hnone
    have h' : ¬(u.role = "hospital_admin" ∨ u.role = "admin") := by
      intro hc
      rcases hc with hc | hc <;> simp [hc] at hnp
    simp [secureSearchUpstreamFilters, h', setField, getField_cons]
  · intro hp
    have h' : u.role = "hospital_admin" ∨ u.role = "admin" := by
      by_cases h1 : u.role = "hospital_admin"
      · exact Or.inl h1
      · by_cases h2 : u.role = "admin"
        · exact Or.inr h2
        · simp [h1, h2] at hp
    simp [secureSearchUpstreamFilters, h']

/-- Witness for `department_default_filter`: the nurse's empty filter set
gains her department, the administrator's explicit filters are untouched. -/
theorem department_default_filter_witness :
    (["hospital_admin", "admin"].contains nurseRequester.role = false
      ∧ getField ([] : JsObj) "department" = none
      ∧ getField (secureSearchUpstreamFilters nurseRequester []) "department" = some "emergency")
    ∧ (["hospital_admin", "admin"].contains adminRequester.role = true
      ∧ secureSearchUpstreamFilters adminRequester [("department", "cardiology")]
          = [("department", "cardiology")]) := by
  refine ⟨⟨by decide, rfl, ?_⟩, ⟨by decide, ?_⟩⟩
  · exact (department_default_filter nurseRequester []).1 (by decide) rfl
  · exact (department_default_filter adminRequester [("department", "cardiology")]).2 (by decide)

/-- C9: Sanitization: the sanitiser removes every internal-only field
(`_department`, `_patient_id`, `_sensitivity_level`); it operates on a
shallow copy, so at the heap level the input object is unchanged after the
call; and it is idempotent, so sanitising an already-sanitised record
yields an identical record. -/
theorem sanitizeRecord_spec (s : Store) (src : ObjId) (o : JsObj)
    (h : storeGet s src = some o) :
    storeGet (sanitizeRecordAlloc s src).1 src = some o
    ∧ storeGet (sanitizeRecordAlloc s src).1 (sanitizeRecordAlloc s src).2
        = some (sanitizeRecord o)
    ∧ getField (sanitizeRecord o) "_department" = none
    ∧ getField (sanitizeRecord o) "_patient_id" = none
    ∧ getField (sanitizeRecord o) "_sensitivity_level" = none
    ∧ sanitizeRecord (sanitizeRecord o) = sanitizeRecord o := by
  have hne : src ≠ freshId s := storeGet_ne_freshId h
  have hobj : (storeGet s src).getD [] = o := by rw [h]; rfl
  refine ⟨?_, ?_, ?_, ?_, ?_, sanitizeRecord_idem_aux o⟩
  · show storeGet ((freshId s, sanitizeRecord ((storeGet s src).getD [])) ::
        (freshId s, (storeGet s src).getD []) :: s) src = some o
    rw [storeGet_cons_ne hne, storeGet_cons_ne hne, h]
  · show storeGet ((freshId s, sanitizeRecord ((storeGet s src).getD [])) ::
        (freshId s, (storeGet s src).getD []) :: s) (freshId s) = some (sanitizeRecord o)
    rw [hobj]
    simp [storeGet, List.find?]
  · unfold sanitizeRecord
    rw [getField_deleteField_other _ _ _ (by decide),
        getField_deleteField_other _ _ _ (by decide), getField_deleteField_self]
  · unfold sanitizeRecord
    rw [getField_deleteField_other _ _ _ (by decide), getField_deleteField_self]
  · unfold sanitizeRecord
    rw [getField_deleteField_self]

/-- Witness for `sanitizeRecord_spec` on a one-object heap. -/
theorem sanitizeRecord_spec_witness :
    storeGet demoStore 0 = some highSensRecord
    ∧ (storeGet (sanitizeRecordAlloc demoStore 0).1 0 = some highSensRecord
      ∧ storeGet (sanitizeRecordAlloc demoStore 0).1 (sanitizeRecordAlloc demoStore 0).2
          = some (sanitizeRecord highSensRecord)
      ∧ getField (sanitizeRecord highSensRecord) "_department" = none
      ∧ getField (sanitizeRecord highSensRecord) "_patient_id" = none
      ∧ getField (sanitizeRecord highSensRecord) "_sensitivity_level" = none
      ∧ sanitizeRecord (sanitizeRecord highSensRecord) = sanitizeRecord highSensRecord) :=
  ⟨by decide, sanitizeRecord_spec demoStore 0 highSensRecord (by decide)⟩

/-- C10: Overnight shifts always fail the shift check: when both shift
bounds are set and `shiftStart` is lexicographically greater than
`shiftEnd`, `isWithinShiftHours` and `isShiftActive` return `false` at
every time of day; the `shift_active` attribute sent to the policy
service is therefore `false`; and a non-emergency `registered_nurse` or
`resident_doctor` requester fails the security filter on every
candidate. -/
theorem overnight_shift_never_active (u : Requester) (s e : String)
    (hs : u.shiftStart = some s) (he : u.shiftEnd = some e)
    (hlt : jsStrLt e s = true) :
    (∀ t, isWithinShiftHours u t = false)
    ∧ (∀ t, isShiftActive u t = false)
    ∧ (∀ clock action res, (buildPermitQuery clock u action res).subjectShiftActive = false)
    ∧ (∀ clock o, (u.role = "registered_nurse" ∨ u.role = "resident_doctor") →
        u.emergencyAccess = false → securityFilterKeeps clock u o = false) := by
  have hwithin : ∀ t, isWithinShiftHours u t = false := by
    intro t
    unfold isWithinShiftHours
    rw [hs, he]
    cases h1 : jsStrLe s t
    · simp [h1]
    · cases h2 : jsStrLe t e
      · simp [h1, h2]
      · have hc := jsStrLe_of_chain h1 h2
        have hf := jsStrLt_not_le hlt
        rw [hc] at hf
        exact absurd hf (by simp)
  refine ⟨hwithin, ?_, ?_, ?_⟩
  · intro t
    have hsame : isShiftActive u t = isWithinShiftHours u t := rfl
    rw [hsame]
    exact hwithin t
  · intro clock action res
    show isShiftActive u clock.timeOfDay = false
    have hsame : isShiftActive u clock.timeOfDay = isWithinShiftHours u clock.timeOfDay := rfl
    rw [hsame]
    exact hwithin clock.timeOfDay
  · intro clock o hrole hem
    unfold securityFilterKeeps
    rcases hrole with hrole | hrole <;>
      simp [hem, hrole, hwithin clock.timeOfDay]

/-- Witness for `overnight_shift_never_active` at the `22:00` to `06:00`
nurse shift. -/
theorem overnight_shift_never_active_witness :
    (overnightNurse.shiftStart = some "22:00"
      ∧ overnightNurse.shiftEnd = some "06:00"
      ∧ jsStrLt "06:00" "22:00" = true)
    ∧ isWithinShiftHours overnightNurse "23:00" = false
    ∧ isShiftActive overnightNurse "02:00" = false
    ∧ (buildPermitQuery demoClock overnightNurse "search"
        (buildSearchResource normalRecord)).subjectShiftActive = false
    ∧ securityFilterKeeps demoClock overnightNurse normalRecord = false := by
  have h := overnight_shift_never_active overnightNurse "22:00" "06:00" rfl rfl (by decide)
  exact ⟨⟨rfl, rfl, by decide⟩, h.1 "23:00", h.2.1 "02:00",
    h.2.2.1 demoClock "search" (buildSearchResource normalRecord),
    h.2.2.2 demoClock normalRecord (Or.inl rfl) rfl⟩

/-- C3 counterexample: the expiry rule is gated on the `temp_staff` role
(`services/secureSearch.js`, lines 130-134), so an attending physician
without the emergency flag whose access expired at the epoch — long
before `demoClock` — still keeps every candidate, refuting the claim that
the rule set rejects every candidate for any such requester regardless of
role. -/
theorem accessExpiry_rule_counterexample :
    expiredPhysician.emergencyAccess = false
    ∧ accessExpired expiredPhysician demoClock.ms = true
    ∧ applySecurityFilters demoClock expiredPhysician [normalRecord] = [normalRecord] := by
  decide

/-- C3 amended: for every requester with role `temp_staff`, without the
emergency-access flag and with an access-expiry timestamp earlier than
the current time, the Security Rule Set rejects every candidate. -/
theorem accessExpiry_rule_temp_staff_only (clock : Clock) (u : Requester)
    (hrole : u.role = "temp_staff") (hem : u.emergencyAccess = false)
    (hexp : accessExpired u clock.ms = true) :
    ∀ results, applySecurityFilters clock u results = [] := by
  intro results
  unfold applySecurityFilters
  refine List.filter_eq_nil_iff.mpr ?_
  intro o _
  unfold securityFilterKeeps
  simp [hem, hrole, hexp]

/-- Witness for `accessExpiry_rule_temp_staff_only` on the expired
temporary staff member. -/
theorem accessExpiry_rule_temp_staff_only_witness :
    (expiredTempStaff.role = "temp_staff"
      ∧ expiredTempStaff.emergencyAccess = false
      ∧ accessExpired expiredTempStaff demoClock.ms = true)
    ∧ applySecurityFilters demoClock expiredTempStaff [normalRecord, highSensRecord] = [] :=
  ⟨⟨rfl, rfl, by decide⟩,
    accessExpiry_rule_temp_staff_only demoClock expiredTempStaff rfl rfl (by decide)
      [normalRecord, highSensRecord]⟩

/-- C4 counterexample: a single-record access with a not-found outcome and
a suggestion request each create zero audit events, not exactly one. -/
theorem audit_event_counterexample :
    ((getAuthorizedRecord allowEnv demoClock nurseRequester "rec_404" []).2).length ≠ 1
    ∧ ((getAuthorizedSuggestions nurseRequester demoSuggestions).2).length ≠ 1 := by
  decide

/-- C4 amended: a search that completes emits exactly one audit event and a
search whose upstream fetch fails emits none; a single-record access emits
exactly one audit event when access is granted and none on denied or
not-found outcomes; a suggestion request emits none.  Audit creation and
emission are total in the embedding (the source swallows their errors), so
they never fail the caller's request. -/
theorem audit_event_emission (env : PermitEnv) (clock : Clock) (u : Requester)
    (query recordId : String) :
    (∀ sr, ((secureSearch env clock u query (Except.ok sr)).2).length = 1)
    ∧ ((secureSearch env clock u query (Except.error ())).2).length = 0
    ∧ (∀ lookupHits, ((getAuthorizedRecord env clock u recordId lookupHits).2).length
        = if exceptSucceeded (getAuthorizedRecord env clock u recordId lookupHits).1
          then 1 else 0)
    ∧ ∀ suggestions, ((getAuthorizedSuggestions u suggestions).2).length = 0 := by
  refine ⟨fun sr => rfl, rfl, fun lookupHits => ?_, fun sgs => rfl⟩
  cases lookupHits with
  | nil => simp [getAuthorizedRecord, exceptSucceeded]
  | cons r rest =>
      by_cases hp : checkPermission env clock u "read" (buildRecordResource r)
      · cases hfil : applySecurityFilters clock u [r] with
        | nil => simp [getAuthorizedRecord, hp, hfil, exceptSucceeded]
        | cons k kt => simp [getAuthorizedRecord, hp, hfil, exceptSucceeded, logRecordAccess]
      · simp [getAuthorizedRecord, hp, exceptSucceeded]

/-- C5: Error taxonomy of `getAuthorizedRecord`: a lookup with no matching
candidate fails with the not-found condition, mapped by the route to a
`404` response distinct from the `403` access-denied response; an existing
candidate denied by the remote policy fails with `Access denied`, and one
rejected by a local Security Rule fails with
`Access denied due to security constraints` — the route maps both to the
identical `403 RECORD_ACCESS_DENIED` response, so the two causes are not
distinguishable by the external caller. -/
theorem record_error_taxonomy (env : PermitEnv) (clock : Clock) (u : Requester)
    (recordId : String) :
    ((getAuthorizedRecord env clock u recordId []).1 = Except.error "Record not found"
      ∧ recordRouteResponse (getAuthorizedRecord env clock u recordId []).1
          = (404, "RECORD_NOT_FOUND"))
    ∧ (∀ o rest,
        ¬ isExplicitAllow (env (buildPermitQuery clock u "read" (buildRecordResource o))) →
        (getAuthorizedRecord env clock u recordId (o :: rest)).1
            = Except.error "Access denied"
        ∧ recordRouteResponse (getAuthorizedRecord env clock u recordId (o :: rest)).1
            = (403, "RECORD_ACCESS_DENIED"))
    ∧ (∀ o rest,
        isExplicitAllow (env (buildPermitQuery clock u "read" (buildRecordResource o))) →
        applySecurityFilters clock u [o] = [] →
        (getAuthorizedRecord env clock u recordId (o :: rest)).1
            = Except.error "Access denied due to security constraints"
        ∧ recordRouteResponse (getAuthorizedRecord env clock u recordId (o :: rest)).1
            = (403, "RECORD_ACCESS_DENIED"))
    ∧ ((404, "RECORD_NOT_FOUND") : Nat × String) ≠ (403, "RECORD_ACCESS_DENIED") := by
  have hnil : (getAuthorizedRecord env clock u recordId []).1
      = Except.error "Record not found" := rfl
  refine ⟨⟨hnil, by rw [hnil]; decide⟩, ?_, ?_, by decide⟩
  · intro o rest hna
    have hfalse : checkPermission env clock u "read" (buildRecordResource o) = false := by
      cases hb : checkPermission env clock u "read" (buildRecordResource o)
      · rfl
      · exact absurd
          ((checkPermission_eq_allow env clock u "read" (buildRecordResource o)).mp hb) hna
    have hout : (getAuthorizedRecord env clock u recordId (o :: rest)).1
        = Except.error "Access denied" := by
      simp [getAuthorizedRecord, hfalse]
    refine ⟨hout, ?_⟩
    rw [hout]
    decide
  · intro o rest hallow hfil
    have htrue : checkPermission env clock u "read" (buildRecordResource o) = true :=
      (checkPermission_eq_allow env clock u "read" (buildRecordResource o)).mpr hallow
    have hout : (getAuthorizedRecord env clock u recordId (o :: rest)).1
        = Except.error "Access denied due to security constraints" := by
      simp [getAuthorizedRecord, htrue, hfil]
    refine ⟨hout, ?_⟩
    rw [hout]
    decide

/-- Witness for `record_error_taxonomy`: not-found, remote deny and local
deny on concrete inputs, with the last two mapped to the same response. -/
theorem record_error_taxonomy_witness :
    (getAuthorizedRecord denyEnv demoClock assignedNurse "rec_404" []).1
        = Except.error "Record not found"
    ∧ recordRouteResponse (getAuthorizedRecord denyEnv demoClock assignedNurse "rec_404" []).1
        = (404, "RECORD_NOT_FOUND")
    ∧ (getAuthorizedRecord denyEnv demoClock assignedNurse "rec_009" [otherPatientRecord]).1
        = Except.error "Access denied"
    ∧ (getAuthorizedRecord allowEnv demoClock assignedNurse "rec_009" [otherPatientRecord]).1
        = Except.error "Access denied due to security constraints"
    ∧ recordRouteResponse (getAuthorizedRecord allowEnv demoClock assignedNurse "rec_009"
          [otherPatientRecord]).1
        = recordRouteResponse (getAuthorizedRecord denyEnv demoClock assignedNurse "rec_009"
          [otherPatientRecord]).1 := by
  have h1 := record_error_taxonomy denyEnv demoClock assignedNurse "rec_404"
  have h2 := record_error_taxonomy denyEnv demoClock assignedNurse "rec_009"
  have h3 := record_error_taxonomy allowEnv demoClock assignedNurse "rec_009"
  refine ⟨h1.1.1, h1.1.2, (h2.2.1 otherPatientRecord [] (by decide)).1,
    (h3.2.2.1 otherPatientRecord [] (by decide) (by decide)).1, ?_⟩
  rw [(h3.2.2.1 otherPatientRecord [] (by decide) (by decide)).2,
      (h2.2.1 otherPatientRecord [] (by decide)).2]

/-- C2 (code bug): the candidate's sensitivity tier is stored in the
internal `_sensitivity_level` field, which `filterAuthorizedResults`
deletes during sanitisation, while `applySecurityFilters` reads the plain
`sensitivity_level` field that indexed records never carry — so in the
composed search pipeline a high-sensitivity candidate is NOT excluded for
a `registered_nurse` even though the requester cannot access high
sensitivity, contradicting the documented behaviour; on a record shaped
like the unit-test fixtures (plain `sensitivity_level` field) the filter
does reject the nurse, confirming the field-wiring slip. -/
theorem sensitivity_rule_dead_in_search_pipeline :
    getField highSensRecord "_sensitivity_level" = some "high"
    ∧ canAccessHighSensitivity nurseRequester = false
    ∧ secureSearchPipeline allowEnv demoClock nurseRequester [highSensRecord]
        = [sanitizeRecord highSensRecord]
    ∧ applySecurityFilters demoClock nurseRequester [plainSensRecord] = [] := by
  refine ⟨by decide, by decide, ?_, by decide⟩
  unfold secureSearchPipeline
  rw [filterAuthorizedResults_eq_filterMap, filterMap_authorize_eq_map_filter]
  decide
